import Mathlib

/-!
Shallow embedding of the quantum-signal-demo pipeline (src/signal-demo.py).

Tables are ordered sequences of named columns; a cell is either a numeric
value (modelled as a rational) or a textual value.  The scipy bandpass
filter (`basic_bandpass_filter`, an external library computation on
floating-point arrays) and the numpy Gaussian noise samples are passed in
as explicit parameters: a fallible, length-preserving list transformation
for the filter, and a per-column stream of sample values for the noise.
Everything else (column selection, the in-loop row truncation, the
per-column exception handling and fallback, watermark insertion, the
validator's size and row gates, the credential check) is translated
directly from the source.
-/

namespace SignalDemo

deriving instance DecidableEq for Except

/-- DEMO_MODE constant from the source. -/
def DEMO_MODE : Bool := true

/-- MAX_FILE_SIZE = 2 * 1024 * 1024 (2MB limit). -/
def MAX_FILE_SIZE : Nat := 2 * 1024 * 1024

/-- MAX_ROWS = 500 (small limit for demo). -/
def MAX_ROWS : Nat := 500

/-- WATERMARK_TEXT with the timestamp substituted for the placeholder:
the template is a fixed label followed by the timestamp. -/
def WATERMARK_TEXT (timestamp : String) : String :=
  "QuantumSignal Demo | Not for Production | " ++ timestamp

/-- A cell of a table: numeric (float in the source, modelled as a
rational) or textual. -/
inductive Val where
  | num (q : ℚ)
  | str (s : String)
deriving DecidableEq

/-- A pandas DataFrame: an ordered sequence of named columns, each an
ordered sequence of cells. -/
structure Table where
  cols : List (String × List Val)
deriving DecidableEq

/-- Number of rows: the length of the index, i.e. of each column. -/
def Table.rowCount (t : Table) : Nat :=
  match t.cols with
  | [] => 0
  | c :: _ => c.2.length

/-- Column names in order. -/
def Table.names (t : Table) : List String :=
  t.cols.map (fun c => c.1)

/-- df.head(n): the first n rows of every column. -/
def Table.head (t : Table) (n : Nat) : Table :=
  ⟨t.cols.map (fun c => (c.1, c.2.take n))⟩

/-- Extraction of a column's values as a numeric array (df[col].values
feeding scipy): any non-numeric cell makes the downstream filter call
raise, modelled as an error. -/
def toNums : List Val → Except String (List ℚ)
  | [] => .ok []
  | Val.num q :: rest => (toNums rest).map (fun l => q :: l)
  | Val.str _ :: _ => .error "non-numeric column"

/-- The DEMO LIMIT step inside the enhancement loop: a signal longer than
MAX_ROWS is cut to its first MAX_ROWS entries. -/
def window (signal : List ℚ) : List ℚ :=
  if signal.length > MAX_ROWS then signal.take MAX_ROWS else signal

/-- Steps of the per-column loop body after truncation: filter, boost,
noise, and the assignment back into the copied frame.  `filt` is the
external scipy bandpass filter (butter + filtfilt), which can raise
(e.g. bad critical frequencies, too-short input) and otherwise returns an
array of the same length as its input; `noise` gives the Gaussian sample
stream drawn for this column.  Assigning an array whose length differs
from the frame's row count raises in pandas, modelled as the final
length check. -/
def process_window (filt : List ℚ → Except String (List ℚ))
    (noise : Nat → ℚ) (boost : ℚ) (origLen : Nat) (signal : List ℚ) :
    Except String (List Val) :=
  match filt signal with
  | .error e => .error e
  | .ok filtered =>
    let boosted := filtered.map (fun x => x * boost)
    let demo_noise := (List.range boosted.length).map noise
    let newvals := (List.zipWith (fun b n => b + n) boosted demo_noise).map Val.num
    if newvals.length = origLen then .ok newvals
    else .error "Length of values does not match length of index"

/-- The whole try-block body for one signal column (lines 64-77 of the
source): extract numeric values, truncate to the demo window, filter,
boost, add noise, assign back. -/
def processColumn (filt : List ℚ → Except String (List ℚ))
    (noise : Nat → ℚ) (boost : ℚ) (vals : List Val) :
    Except String (List Val) :=
  match toNums vals with
  | .error e => .error e
  | .ok signal => process_window filt noise boost vals.length (window signal)

/-- Python str.lower applied to a column name, modelled per character
(the comparison target "time" and realistic column names are ASCII,
where the two coincide). -/
def lowerStr (s : String) : String :=
  ⟨s.data.map Char.toLower⟩

/-- Whether a column name is the (case-insensitive) time column, which is
excluded from the signal columns. -/
def isTimeCol (name : String) : Bool :=
  lowerStr name == "time"

/-- One iteration of the enhancement loop: time columns are skipped;
for a signal column the try-block either replaces the values or, on any
exception, leaves the original values and surfaces a column-scoped
warning (the column's name). -/
def enhance_col (filt : List ℚ → Except String (List ℚ))
    (noise : String → Nat → ℚ) (boost : ℚ) (c : String × List Val) :
    (String × List Val) × Option String :=
  if isTimeCol c.1 then (c, none)
  else
    match processColumn filt (noise c.1) boost c.2 with
    | .ok newvals => ((c.1, newvals), none)
    | .error _ => (c, some c.1)

/-- demo_enhance_signals: copies the frame, runs the per-column loop, and
returns the enhanced frame together with the surfaced per-column
warnings. -/
def demo_enhance_signals (filt : List ℚ → Except String (List ℚ))
    (noise : String → Nat → ℚ) (df : Table) (boost : ℚ) :
    Table × List String :=
  let results := df.cols.map (enhance_col filt noise boost)
  (⟨results.map (fun r => r.1)⟩, results.filterMap (fun r => r.2))

/-- State of the caller's argument object after demo_enhance_signals
returns: the function works on df.copy(), so the caller's frame is
untouched. -/
def demo_enhance_inputAfter (df : Table) : Table := df

/-- add_watermark: formats the marker from WATERMARK_TEXT and the
timestamp and inserts it as a first column named DEMO_WATERMARK with the
marker repeated for every row.  pandas df.insert raises when a column of
that name already exists. -/
def add_watermark (timestamp : String) (df : Table) :
    Except String (Table × String) :=
  let watermark := WATERMARK_TEXT timestamp
  if df.cols.any (fun c => c.1 == "DEMO_WATERMARK") then
    .error "cannot insert DEMO_WATERMARK, already exists"
  else
    .ok (⟨("DEMO_WATERMARK", List.replicate df.rowCount (Val.str watermark)) :: df.cols⟩,
      watermark)

/-- State of the caller's argument object after add_watermark returns:
df.insert mutates the frame in place, so on success the caller's frame is
the watermarked one; the failing insert leaves it unchanged. -/
def add_watermark_inputAfter (timestamp : String) (df : Table) : Table :=
  match add_watermark timestamp df with
  | .ok r => r.1
  | .error _ => df

/-- Session state: the authenticated flag kept in st.session_state,
absent before first use. -/
def initFlag (flag : Option Bool) : Bool :=
  flag.getD false

/-- One submission of the access form in check_auth (lines 16-33): given
the session's current flag and the submitted access code, returns the
new flag and whether the invalid-credential error was signalled.  When
the session is already authenticated the form is not shown and nothing
changes. -/
def check_auth (flag : Option Bool) (password : String) : Bool × Bool :=
  let auth := initFlag flag
  if auth then (auth, false)
  else if password == "Demo2025" then (true, false)
  else (false, true)

/-- The validator's row limit in main (lines 125-128): a frame with more
than MAX_ROWS rows is replaced by its head(MAX_ROWS) and a Truncated
notice is shown. -/
def validate_rows (df : Table) : Table × Bool :=
  if df.rowCount > MAX_ROWS then (df.head MAX_ROWS, true) else (df, false)

/-- Possible outcomes of the upload handling in main. -/
inductive UploadResult where
  | fileTooLarge
  | malformed (msg : String)
  | parsed (df : Table) (truncated : Bool)
deriving DecidableEq

/-- The upload handling in main (lines 116-128): the declared size is
checked against MAX_FILE_SIZE before the bytes are parsed; only below
the ceiling is the parser (`parse`, pd.read_csv on the uploaded bytes)
invoked, and its result then passes through the row limit. -/
def handle_upload (parse : Unit → Except String Table) (size : Nat) :
    UploadResult :=
  if size > MAX_FILE_SIZE then .fileTooLarge
  else
    match parse () with
    | .error e => .malformed e
    | .ok df =>
      let v := validate_rows df
      .parsed v.1 v.2

/-! Helper lemmas about the per-column transform. -/

/-- Successful numeric extraction preserves the column's length. -/
theorem toNums_length {vals : List Val} {l : List ℚ} (h : toNums vals = .ok l) :
    l.length = vals.length := by
  induction vals generalizing l with
  | nil =>
    simp only [toNums, Except.ok.injEq] at h
    simp [← h]
  | cons v rest ih =>
    cases v with
    | num q =>
      simp only [toNums] at h
      cases hr : toNums rest with
      | error e => rw [hr] at h; simp [Except.map] at h
      | ok l2 =>
        rw [hr] at h
        simp only [Except.map, Except.ok.injEq] at h
        subst h
        simp [ih hr]
    | str s => simp [toNums] at h

/-- A successful assignment back into the frame means the new values have
exactly the frame's row count for that column. -/
theorem process_window_ok_length {filt : List ℚ → Except String (List ℚ)}
    {noise : Nat → ℚ} {boost : ℚ} {origLen : Nat} {signal : List ℚ}
    {out : List Val}
    (h : process_window filt noise boost origLen signal = .ok out) :
    out.length = origLen := by
  unfold process_window at h
  cases hf : filt signal with
  | error e => rw [hf] at h; cases h
  | ok filtered =>
    rw [hf] at h
    simp only at h
    split at h
    · next hlen => cases h; exact hlen
    · cases h

/-- A successfully processed column keeps its length. -/
theorem processColumn_ok_length {filt : List ℚ → Except String (List ℚ)}
    {noise : Nat → ℚ} {boost : ℚ} {vals out : List Val}
    (h : processColumn filt noise boost vals = .ok out) :
    out.length = vals.length := by
  unfold processColumn at h
  cases ht : toNums vals with
  | error e => rw [ht] at h; cases h
  | ok signal => rw [ht] at h; exact process_window_ok_length h

/-- The enhancement loop body never renames a column. -/
theorem enhance_col_name (filt : List ℚ → Except String (List ℚ))
    (noise : String → Nat → ℚ) (boost : ℚ) (c : String × List Val) :
    ((enhance_col filt noise boost c).1).1 = c.1 := by
  unfold enhance_col
  split
  · rfl
  · split <;> rfl

/-- The enhancement loop body never changes a column's length: either the
assignment succeeded with matching length, or the fallback kept the
original values. -/
theorem enhance_col_length (filt : List ℚ → Except String (List ℚ))
    (noise : String → Nat → ℚ) (boost : ℚ) (c : String × List Val) :
    ((enhance_col filt noise boost c).1).2.length = c.2.length := by
  unfold enhance_col
  split
  · rfl
  · split
    · next nv h => exact processColumn_ok_length h
    · rfl

/-- Time columns pass through the enhancement loop untouched. -/
theorem enhance_col_time (filt : List ℚ → Except String (List ℚ))
    (noise : String → Nat → ℚ) (boost : ℚ) (c : String × List Val)
    (h : isTimeCol c.1 = true) :
    enhance_col filt noise boost c = (c, none) := by
  unfold enhance_col
  rw [if_pos h]

/-! Claim theorems. -/

/-- C5: the access check sets the session's authenticated flag to true if
and only if the submitted credential equals the fixed secret string
"Demo2025"; for every other submitted string the flag remains false and
the invalid-credential error is signalled. -/
theorem check_auth_gate (flag : Option Bool) (password : String)
    (h : initFlag flag = false) :
    ((check_auth flag password).1 = true ↔ password = "Demo2025") ∧
    (password ≠ "Demo2025" →
      (check_auth flag password).1 = false ∧
      (check_auth flag password).2 = true) := by
  unfold check_auth
  rw [h]
  by_cases hp : password = "Demo2025"
  · subst hp; simp
  · simp [hp]

/-- Witness for C5 at the concrete inputs: a fresh session and the wrong
code "letmein". -/
theorem check_auth_gate_witness :
    initFlag none = false ∧
    ((check_auth none "letmein").1 = false ∧ (check_auth none "letmein").2 = true) :=
  ⟨by decide, (check_auth_gate none "letmein" (by decide)).2 (by decide)⟩

/-- C6: for every input table with R rows, the validator's row limit
returns the first MAX_ROWS rows (exactly MAX_ROWS of them, per column)
together with the Truncated notice when R > MAX_ROWS, and returns the
table unchanged with no notice when R ≤ MAX_ROWS. -/
theorem validate_rows_truncation (df : Table)
    (wf : ∀ c ∈ df.cols, c.2.length = df.rowCount) :
    (df.rowCount > MAX_ROWS →
      validate_rows df = (df.head MAX_ROWS, true) ∧
      (validate_rows df).1.rowCount = MAX_ROWS ∧
      ∀ c ∈ (validate_rows df).1.cols, c.2.length = MAX_ROWS) ∧
    (df.rowCount ≤ MAX_ROWS → validate_rows df = (df, false)) := by
  constructor
  · intro h
    have hval : validate_rows df = (df.head MAX_ROWS, true) := by
      unfold validate_rows
      rw [if_pos h]
    refine ⟨hval, ?_, ?_⟩
    · rw [hval]
      unfold Table.head Table.rowCount
      cases hc : df.cols with
      | nil =>
        exfalso
        unfold Table.rowCount at h
        rw [hc] at h
        simp at h
      | cons c rest =>
        simp only [List.map_cons, List.length_take]
        have := wf c (by rw [hc]; exact List.mem_cons_self c rest)
        omega
    · rw [hval]
      intro c hc
      unfold Table.head at hc
      simp only [List.mem_map] at hc
      obtain ⟨c0, hc0, hc0eq⟩ := hc
      have := wf c0 hc0
      rw [← hc0eq]
      simp only [List.length_take]
      omega
  · intro h
    unfold validate_rows
    rw [if_neg (by omega)]

/-- Concrete table with 501 single-cell rows in one column, exercising
the truncation branch of the row validator. -/
def overlongTable : Table := ⟨[("ch1", List.replicate 501 (Val.num 0))]⟩

set_option maxRecDepth 10000 in
/-- Witness for C6: the 501-row table is truncated to its first 500 rows
with the notice raised. -/
theorem validate_rows_truncation_witness :
    (∀ c ∈ overlongTable.cols, c.2.length = overlongTable.rowCount) ∧
    overlongTable.rowCount > MAX_ROWS ∧
    validate_rows overlongTable = (overlongTable.head MAX_ROWS, true) :=
  ⟨by decide, by decide,
    ((validate_rows_truncation overlongTable (by decide)).1 (by decide)).1⟩

/-- C7: the declared-size gate in main rejects any upload larger than
MAX_FILE_BYTES as FileTooLarge without ever invoking the parser (the
outcome does not depend on the parse function at all), and invokes the
parser exactly when the size is at or below the ceiling. -/
theorem size_gate_before_parse (parse : Unit → Except String Table) (size : Nat) :
    (size > MAX_FILE_SIZE →
      handle_upload parse size = .fileTooLarge ∧
      ∀ parse2, handle_upload parse size = handle_upload parse2 size) ∧
    (size ≤ MAX_FILE_SIZE →
      handle_upload parse size =
        match parse () with
        | .error e => .malformed e
        | .ok df => .parsed (validate_rows df).1 (validate_rows df).2) := by
  constructor
  · intro h
    have hr : handle_upload parse size = .fileTooLarge := by
      unfold handle_upload
      rw [if_pos h]
    refine ⟨hr, fun parse2 => ?_⟩
    rw [hr]
    unfold handle_upload
    rw [if_pos h]
  · intro h
    unfold handle_upload
    rw [if_neg (by omega)]

/-- Parser stub returning the empty table, used only to instantiate the
size-gate theorem at a concrete input. -/
def parseEmpty : Unit → Except String Table := fun _ => .ok ⟨[]⟩

/-- Witness for C7 at one byte over the ceiling. -/
theorem size_gate_before_parse_witness :
    MAX_FILE_SIZE + 1 > MAX_FILE_SIZE ∧
    handle_upload parseEmpty (MAX_FILE_SIZE + 1) = .fileTooLarge :=
  ⟨by decide,
    ((size_gate_before_parse parseEmpty (MAX_FILE_SIZE + 1)).1 (by decide)).1⟩

/-- The enhanced frame's columns are the image of the per-column loop
body over the input columns. -/
theorem enhance_cols_eq (filt : List ℚ → Except String (List ℚ))
    (noise : String → Nat → ℚ) (df : Table) (boost : ℚ) :
    (demo_enhance_signals filt noise df boost).1.cols =
      df.cols.map (fun c => (enhance_col filt noise boost c).1) := by
  unfold demo_enhance_signals
  simp [List.map_map]

/-- The surfaced warnings are exactly those produced by the per-column
loop body, in column order. -/
theorem enhance_warnings_eq (filt : List ℚ → Except String (List ℚ))
    (noise : String → Nat → ℚ) (df : Table) (boost : ℚ) :
    (demo_enhance_signals filt noise df boost).2 =
      df.cols.filterMap (fun c => (enhance_col filt noise boost c).2) := by
  unfold demo_enhance_signals
  simp only [List.filterMap_map]
  rfl

/-- A signal column whose try-block raises falls back to its original
values with a column-scoped warning. -/
theorem enhance_col_fail (filt : List ℚ → Except String (List ℚ))
    (noise : String → Nat → ℚ) (boost : ℚ) (c : String × List Val)
    (hsig : isTimeCol c.1 = false)
    (hfail : ∃ e, processColumn filt (noise c.1) boost c.2 = .error e) :
    enhance_col filt noise boost c = (c, some c.1) := by
  obtain ⟨e, he⟩ := hfail
  unfold enhance_col
  rw [if_neg (by simp [hsig]), he]

/-- A signal column whose try-block succeeds is replaced by the processed
values with no warning. -/
theorem enhance_col_ok (filt : List ℚ → Except String (List ℚ))
    (noise : String → Nat → ℚ) (boost : ℚ) (c : String × List Val)
    (nv : List Val) (hsig : isTimeCol c.1 = false)
    (h : processColumn filt (noise c.1) boost c.2 = .ok nv) :
    enhance_col filt noise boost c = ((c.1, nv), none) := by
  unfold enhance_col
  rw [if_neg (by simp [hsig]), h]

/-- C3: enhancement preserves the column names and their order, the row
count of every column (hence the table's row count), and leaves every
column whose name is case-insensitively "time" byte-identical; only
values in signal columns change. -/
theorem enhance_shape_preserved (filt : List ℚ → Except String (List ℚ))
    (noise : String → Nat → ℚ) (df : Table) (boost : ℚ) :
    ((demo_enhance_signals filt noise df boost).1.names = df.names) ∧
    ((demo_enhance_signals filt noise df boost).1.rowCount = df.rowCount) ∧
    (∀ i : Nat,
      ((demo_enhance_signals filt noise df boost).1.cols[i]?).map
          (fun c => c.2.length) =
        (df.cols[i]?).map (fun c => c.2.length)) ∧
    (∀ i : Nat, ∀ c, df.cols[i]? = some c → isTimeCol c.1 = true →
      (demo_enhance_signals filt noise df boost).1.cols[i]? = some c) := by
  have hcols := enhance_cols_eq filt noise df boost
  refine ⟨?_, ?_, ?_, ?_⟩
  · unfold Table.names
    rw [hcols, List.map_map]
    exact List.map_congr_left fun c _ => enhance_col_name filt noise boost c
  · unfold Table.rowCount
    rw [hcols]
    cases hdf : df.cols with
    | nil => simp
    | cons c rest =>
      simp only [List.map_cons]
      exact enhance_col_length filt noise boost c
  · intro i
    rw [hcols, List.getElem?_map]
    cases hio : df.cols[i]? with
    | none => simp
    | some c => simp [enhance_col_length filt noise boost c]
  · intro i c hic htime
    rw [hcols, List.getElem?_map, hic]
    simp [enhance_col_time filt noise boost c htime]

/-- Identity stand-in for the external bandpass filter, used to
instantiate theorems at concrete inputs. -/
def idFilt : List ℚ → Except String (List ℚ) := fun l => .ok l

/-- Zero noise stream used to instantiate theorems at concrete inputs. -/
def zeroNoise : String → Nat → ℚ := fun _ _ => 0

/-- Small table with a time column, a non-numeric signal column and a
numeric signal column. -/
def mixedTable : Table :=
  ⟨[("Time", [Val.num 0]), ("bad", [Val.str "x"]), ("ch1", [Val.num 1])]⟩

/-- Witness for C3: the time column of the mixed table survives
enhancement byte-identically. -/
theorem enhance_shape_preserved_witness :
    (mixedTable.cols[0]? = some ("Time", [Val.num 0])) ∧
    isTimeCol "Time" = true ∧
    (demo_enhance_signals idFilt zeroNoise mixedTable 1).1.cols[0]? =
      some ("Time", [Val.num 0]) :=
  ⟨by decide, by decide,
    (enhance_shape_preserved idFilt zeroNoise mixedTable 1).2.2.2 0
      ("Time", [Val.num 0]) (by decide) (by decide)⟩

/-- C2: per-column isolation of the enhancement.  When the try-block for
one signal column raises, that column's output equals its original input
values and its name is surfaced as a warning, while every other signal
column whose try-block succeeds is still replaced by its transformed
values. -/
theorem enhance_column_isolation (filt : List ℚ → Except String (List ℚ))
    (noise : String → Nat → ℚ) (boost : ℚ) (df : Table) (i : Nat)
    (c : String × List Val)
    (hic : df.cols[i]? = some c)
    (hsig : isTimeCol c.1 = false)
    (hfail : ∃ e, processColumn filt (noise c.1) boost c.2 = .error e) :
    ((demo_enhance_signals filt noise df boost).1.cols[i]? = some c) ∧
    (c.1 ∈ (demo_enhance_signals filt noise df boost).2) ∧
    (∀ j : Nat, ∀ d nv, df.cols[j]? = some d → isTimeCol d.1 = false →
      processColumn filt (noise d.1) boost d.2 = .ok nv →
      (demo_enhance_signals filt noise df boost).1.cols[j]? = some (d.1, nv)) := by
  have hcols := enhance_cols_eq filt noise df boost
  refine ⟨?_, ?_, ?_⟩
  · rw [hcols, List.getElem?_map, hic]
    simp [enhance_col_fail filt noise boost c hsig hfail]
  · rw [enhance_warnings_eq]
    exact List.mem_filterMap.mpr
      ⟨c, List.getElem?_mem hic, by rw [enhance_col_fail filt noise boost c hsig hfail]⟩
  · intro j d nv hjd hdsig hok
    rw [hcols, List.getElem?_map, hjd]
    simp [enhance_col_ok filt noise boost d nv hdsig hok]

/-- Witness for C2 on the mixed table: the non-numeric column falls back
unchanged with a warning, and the numeric channel is still transformed. -/
theorem enhance_column_isolation_witness :
    (mixedTable.cols[1]? = some ("bad", [Val.str "x"])) ∧
    isTimeCol "bad" = false ∧
    processColumn idFilt (zeroNoise "bad") 1 [Val.str "x"] =
      .error "non-numeric column" ∧
    ((demo_enhance_signals idFilt zeroNoise mixedTable 1).1.cols[1]? =
        some ("bad", [Val.str "x"])) ∧
    ("bad" ∈ (demo_enhance_signals idFilt zeroNoise mixedTable 1).2) ∧
    ((demo_enhance_signals idFilt zeroNoise mixedTable 1).1.cols[2]? =
        some ("ch1", [Val.num 1])) := by
  have hok : processColumn idFilt (zeroNoise "ch1") 1 [Val.num 1] = .ok [Val.num 1] := by
    simp [processColumn, toNums, Except.map, window, process_window, idFilt,
      zeroNoise, MAX_ROWS, List.range_succ, List.zipWith_cons_cons]
  have main := enhance_column_isolation idFilt zeroNoise 1 mixedTable 1
    ("bad", [Val.str "x"]) (by decide) (by decide)
    ⟨"non-numeric column", by decide⟩
  exact ⟨by decide, by decide, by decide, main.1, main.2.1,
    main.2.2 2 ("ch1", [Val.num 1]) [Val.num 1] (by decide) (by decide) hok⟩

/-- C9: inside the transformer, a numeric signal sequence longer than
MAX_ROWS is truncated to its first MAX_ROWS entries before the filter is
applied, and the per-column processing then proceeds on that truncated
window. -/
theorem transformer_window_truncation (filt : List ℚ → Except String (List ℚ))
    (noise : Nat → ℚ) (boost : ℚ) (vals : List Val) (signal : List ℚ)
    (h : toNums vals = .ok signal) (hlen : signal.length > MAX_ROWS) :
    window signal = signal.take MAX_ROWS ∧
    (window signal).length = MAX_ROWS ∧
    processColumn filt noise boost vals =
      process_window filt noise boost vals.length (signal.take MAX_ROWS) := by
  have hw : window signal = signal.take MAX_ROWS := by
    unfold window
    rw [if_pos hlen]
  refine ⟨hw, ?_, ?_⟩
  · rw [hw, List.length_take]
    omega
  · unfold processColumn
    rw [h]
    show process_window filt noise boost vals.length (window signal) =
      process_window filt noise boost vals.length (signal.take MAX_ROWS)
    rw [hw]

/-- Column of 501 zero samples, exceeding the row ceiling. -/
def overlongVals : List Val := List.replicate 501 (Val.num 0)

/-- The numeric sequence extracted from overlongVals. -/
def overlongSignal : List ℚ := List.replicate 501 0

set_option maxRecDepth 10000 in
/-- Witness for C9: the 501-sample signal is cut to its first 500 entries
before filtering. -/
theorem transformer_window_truncation_witness :
    toNums overlongVals = .ok overlongSignal ∧
    overlongSignal.length > MAX_ROWS ∧
    window overlongSignal = overlongSignal.take MAX_ROWS :=
  ⟨by decide, by decide,
    (transformer_window_truncation idFilt (zeroNoise "ch1") 1 overlongVals
      overlongSignal (by decide) (by decide)).1⟩

/-- When a column longer than MAX_ROWS reaches the loop body, the
truncated result can no longer be assigned back into the longer frame,
so the try-block necessarily raises (at the assignment at the latest). -/
theorem processColumn_overlong (filt : List ℚ → Except String (List ℚ))
    (hfilt : ∀ l r, filt l = .ok r → r.length = l.length)
    (noise : Nat → ℚ) (boost : ℚ) (vals : List Val)
    (h : MAX_ROWS < vals.length) :
    ∃ e, processColumn filt noise boost vals = .error e := by
  unfold processColumn
  cases ht : toNums vals with
  | error e => exact ⟨e, rfl⟩
  | ok signal =>
    have hsl : signal.length = vals.length := toNums_length ht
    have hw : (window signal).length = MAX_ROWS := by
      unfold window
      rw [if_pos (by omega), List.length_take]
      omega
    show ∃ e, process_window filt noise boost vals.length (window signal) =
      .error e
    unfold process_window
    cases hf : filt (window signal) with
    | error e => exact ⟨e, rfl⟩
    | ok filtered =>
      have hfl : filtered.length = MAX_ROWS := by rw [hfilt _ _ hf, hw]
      refine ⟨"Length of values does not match length of index", ?_⟩
      simp only [List.length_map, List.length_zipWith, List.length_range,
        hfl, Nat.min_self]
      rw [if_neg (by omega)]

/-- C10: a table handed directly to the transformer with more than
MAX_ROWS rows comes back with every column equal to its original input
values (the truncated result cannot be assigned back into the longer
frame, the per-column handler catches the failure, and the fallback
restores the column), and a warning is surfaced for every signal
column. -/
theorem overlong_table_columns_restored (filt : List ℚ → Except String (List ℚ))
    (noise : String → Nat → ℚ) (boost : ℚ) (df : Table)
    (hfilt : ∀ l r, filt l = .ok r → r.length = l.length)
    (hrow : MAX_ROWS < df.rowCount)
    (wf : ∀ c ∈ df.cols, c.2.length = df.rowCount) :
    (demo_enhance_signals filt noise df boost).1 = df ∧
    (demo_enhance_signals filt noise df boost).2 =
      df.cols.filterMap
        (fun c => if isTimeCol c.1 then none else some c.1) := by
  have hcol : ∀ c ∈ df.cols, enhance_col filt noise boost c =
      (c, if isTimeCol c.1 then none else some c.1) := by
    intro c hc
    by_cases ht : isTimeCol c.1 = true
    · rw [enhance_col_time filt noise boost c ht, if_pos ht]
    · have hfail := processColumn_overlong filt hfilt (noise c.1) boost c.2
        (by rw [wf c hc]; exact hrow)
      rw [enhance_col_fail filt noise boost c (by simpa using ht) hfail,
        if_neg ht]
  constructor
  · have h1 := enhance_cols_eq filt noise df boost
    have h2 : df.cols.map (fun c => (enhance_col filt noise boost c).1) =
        df.cols := by
      conv_rhs => rw [← List.map_id df.cols]
      exact List.map_congr_left fun c hc => by rw [hcol c hc]; rfl
    cases hdf : demo_enhance_signals filt noise df boost with
    | mk fst snd =>
      have : fst.cols = df.cols := by
        rw [← h2, ← h1, hdf]
      cases fst
      cases df
      simp only at this
      rw [this]
  · rw [enhance_warnings_eq]
    exact List.filterMap_congr fun c hc => by rw [hcol c hc]

/-- Two-column table (time plus one channel) with 501 rows each. -/
def overlongWideTable : Table :=
  ⟨[("Time", overlongVals), ("ch1", overlongVals)]⟩

set_option maxRecDepth 10000 in
/-- Witness for C10: the 501-row two-column table passes through the
transformer unchanged. -/
theorem overlong_table_columns_restored_witness :
    MAX_ROWS < overlongWideTable.rowCount ∧
    (demo_enhance_signals idFilt zeroNoise overlongWideTable 1).1 =
      overlongWideTable :=
  ⟨by decide,
    (overlong_table_columns_restored idFilt zeroNoise 1 overlongWideTable
      (fun l r h => by cases h; rfl) (by decide) (by decide)).1⟩

/-- C4 counterexample: the watermarker mutates its input frame in place
(df.insert); after stamping this one-column table the caller's object no
longer equals the original table, so not every stage leaves its input
unchanged. -/
theorem add_watermark_mutates_input_cex :
    add_watermark_inputAfter "2025-01-01 00:00:00" ⟨[("ch1", [Val.num 1])]⟩ ≠
      ⟨[("ch1", [Val.num 1])]⟩ := by decide

/-- C4 amended: the transformer stage leaves the caller's input frame
unchanged (it processes a copy), so the original uploaded table stays
available for a before/after comparison; the watermarker however mutates
its input in place: on a successful stamp the caller's object equals the
returned watermarked frame, which differs from the input frame. -/
theorem pipeline_mutation_amended (df : Table) (timestamp : String) :
    demo_enhance_inputAfter df = df ∧
    (∀ t marker, add_watermark timestamp df = .ok (t, marker) →
      add_watermark_inputAfter timestamp df = t ∧ t ≠ df) := by
  refine ⟨rfl, ?_⟩
  intro t marker h
  constructor
  · unfold add_watermark_inputAfter
    rw [h]
  · intro hteq
    unfold add_watermark at h
    split at h
    · cases h
    · injection h with h1
      injection h1 with h2 h3
      subst h2
      have hlen := congrArg (fun u => u.cols.length) hteq
      simp only [List.length_cons] at hlen
      omega

/-- One-channel table used to instantiate the watermark theorems. -/
def oneColTable : Table := ⟨[("ch1", [Val.num 1])]⟩

/-- The stamped version of oneColTable at a fixed timestamp. -/
def stampedTable : Table :=
  ⟨[("DEMO_WATERMARK", [Val.str (WATERMARK_TEXT "2025-01-01 00:00:00")]),
    ("ch1", [Val.num 1])]⟩

/-- Witness for the amended C4: stamping the one-channel table leaves the
caller's object equal to the stamped frame, not the original. -/
theorem pipeline_mutation_amended_witness :
    (add_watermark "2025-01-01 00:00:00" oneColTable =
      .ok (stampedTable, WATERMARK_TEXT "2025-01-01 00:00:00")) ∧
    (add_watermark_inputAfter "2025-01-01 00:00:00" oneColTable = stampedTable ∧
      stampedTable ≠ oneColTable) :=
  ⟨by decide,
    (pipeline_mutation_amended oneColTable "2025-01-01 00:00:00").2
      stampedTable (WATERMARK_TEXT "2025-01-01 00:00:00") (by decide)⟩

/-- C8 counterexample: on a table that already contains a DEMO_WATERMARK
column the insert raises, so no stamped table is produced for that
input. -/
theorem add_watermark_existing_col_cex :
    add_watermark "2025-01-01 00:00:00" ⟨[("DEMO_WATERMARK", [Val.num 0])]⟩ =
      .error "cannot insert DEMO_WATERMARK, already exists" := by decide

/-- C8 amended: for every input table that does not already contain a
column named DEMO_WATERMARK, the stamp deterministically produces the
input table with exactly one new column prepended at position 0, named
DEMO_WATERMARK (distinct from every existing column name), whose value
in every row is the marker string built from the fixed label and the
timestamp; if such a column already exists the insert fails instead. -/
theorem add_watermark_stamp (timestamp : String) (df : Table)
    (hfresh : ∀ c ∈ df.cols, c.1 ≠ "DEMO_WATERMARK") :
    add_watermark timestamp df =
      .ok (⟨("DEMO_WATERMARK",
          List.replicate df.rowCount (Val.str (WATERMARK_TEXT timestamp))) ::
            df.cols⟩,
        WATERMARK_TEXT timestamp) ∧
    "DEMO_WATERMARK" ∉ df.names := by
  have hany : df.cols.any (fun c => c.1 == "DEMO_WATERMARK") = false := by
    rw [List.any_eq_false]
    intro c hc
    simp [hfresh c hc]
  constructor
  · unfold add_watermark
    rw [if_neg (by simp [hany])]
  · intro hmem
    unfold Table.names at hmem
    obtain ⟨c, hc, hceq⟩ := List.mem_map.mp hmem
    exact hfresh c hc hceq

/-- Witness for the amended C8 on the mixed table, which has no
watermark column yet. -/
theorem add_watermark_stamp_witness :
    (∀ c ∈ mixedTable.cols, c.1 ≠ "DEMO_WATERMARK") ∧
    "DEMO_WATERMARK" ∉ mixedTable.names :=
  ⟨by decide,
    (add_watermark_stamp "2025-01-01 00:00:00" mixedTable (by decide)).2⟩

end SignalDemo
